import Mathlib

/-!
Verification development for the fulltracer trace formatting and filtering
engine (src/fulltracer.py).

The Python code is shallowly embedded: Python strings are modelled as
`List Char` (uniformly called `Str` below), Python integers as `Int`,
fallible operations as `Except PyErr`.  The regular-expression engine is
abstracted: a pattern value carries a validity flag (a malformed pattern
raises `re.error` at the first `re.match` or `re.search` call, which is when
CPython compiles it) together with its prefix-match and search behaviours as
boolean functions on strings.  The filesystem boundary (`open` followed by
`readlines`) is modelled as a function from filenames to a `FileResult`:
either the list of raw lines as `readlines` returns them, a
`FileNotFoundError`, or any other `OSError` (for instance a permission
error).
-/

namespace FT

/-- Python strings are modelled as lists of characters. -/
abbrev Str := List Char

/-- Python exceptions that the embedded code can raise: `re.error` from a
malformed pattern, `ValueError` from `int()` or `str.split` with an empty
separator, `IndexError` from list indexing, any `OSError` other than
`FileNotFoundError` from `open`, `TypeError` from `str.replace` with a
`None` argument, and `AttributeError` from calling a method on `None`. -/
inductive PyErr where
  | reError
  | valueError
  | indexError
  | osError
  | typeError
  | attrError
deriving DecidableEq, Repr

/-- Outcome of `open(filename)` followed by `readlines()`: the raw line
list exactly as `readlines` returns it, a `FileNotFoundError`, or any
other `OSError` such as a permission error. -/
inductive FileResult where
  | found (ls : List Str)
  | absent
  | denied
deriving Repr

/-- Abstraction of a compiled regular expression.  A Python pattern string
is modelled by its observable behaviour: whether it is well formed
(`valid`), whether `re.match` succeeds on a given string (`matchB`, prefix
semantics), and whether `re.search` succeeds (`searchB`, anywhere
semantics).  CPython compiles a pattern at the first `re.match` or
`re.search` call on it, raising `re.error` there when it is malformed. -/
structure PyRegex where
  valid : Bool
  matchB : Str → Bool
  searchB : Str → Bool

/-- Embeds `re.match(p, s)`: raises `re.error` for a malformed pattern,
otherwise reports whether the pattern matches a prefix of `s`. -/
def reMatch (p : PyRegex) (s : Str) : Except PyErr Bool :=
  if p.valid then .ok (p.matchB s) else .error .reError

/-- Embeds `re.search(p, s)`: raises `re.error` for a malformed pattern,
otherwise reports whether the pattern matches anywhere in `s`. -/
def reSearch (p : PyRegex) (s : Str) : Except PyErr Bool :=
  if p.valid then .ok (p.searchB s) else .error .reError

/-- Does the string `s` start with the string `p`?  Helper for the
embeddings of `str.split`, `str.replace` and the `in` operator. -/
def listStartsWith : Str → Str → Bool
  | [], _ => true
  | _ :: _, [] => false
  | a :: as, b :: bs => a == b && listStartsWith as bs

/-- First occurrence of `sep` in `s`: returns the part strictly before the
occurrence and the part strictly after it, or `none` when `sep` does not
occur.  For empty `sep` on nonempty `s` it reports an occurrence at
position 0; all callers below guard the empty-separator case first. -/
def splitFirst (sep : Str) : Str → Option (Str × Str)
  | [] => none
  | a :: as =>
    if listStartsWith sep (a :: as) then some ([], (a :: as).drop sep.length)
    else
      match splitFirst sep as with
      | some (p, r) => some (a :: p, r)
      | none => none

/-- Fuel-driven worker for `str.split` with a nonempty separator.  The fuel
only needs to exceed the length of the string, which every caller
guarantees, so the fuel-exhausted branch is never reached. -/
def pySplitGo (sep : Str) : Nat → Str → List Str
  | 0, s => [s]
  | fuel + 1, s =>
    match splitFirst sep s with
    | none => [s]
    | some (p, r) => p :: pySplitGo sep fuel r

/-- Embeds `s.split(sep)` for nonempty `sep` (total form). -/
def pySplitRun (s sep : Str) : List Str :=
  pySplitGo sep (s.length + 1) s

/-- Embeds `s.split(sep)`: Python raises `ValueError` when the separator is
empty. -/
def pySplit (s sep : Str) : Except PyErr (List Str) :=
  if sep = [] then .error .valueError else .ok (pySplitRun s sep)

/-- Fuel-driven worker for `str.replace` with a nonempty pattern. -/
def pyReplaceGo (old nw : Str) : Nat → Str → Str
  | 0, s => s
  | fuel + 1, s =>
    match splitFirst old s with
    | none => s
    | some (p, r) => p ++ nw ++ pyReplaceGo old nw fuel r

/-- Embeds `s.replace(old, nw)`: every non-overlapping occurrence of `old`
in `s`, scanned left to right, is replaced by `nw`.  For an empty `old`,
Python inserts `nw` before every character and at the end. -/
def pyReplace (s old nw : Str) : Str :=
  if old = [] then nw ++ s.foldr (fun ch acc => ch :: (nw ++ acc)) []
  else pyReplaceGo old nw (s.length + 1) s

/-- Embeds the Python substring test `sub in s`. -/
def pyContains (s sub : Str) : Bool :=
  if sub = [] then true else (splitFirst sub s).isSome

/-- Embeds `str.strip()` with no argument: drop whitespace from both
ends. -/
def pyStrip (s : Str) : Str :=
  ((s.dropWhile Char.isWhitespace).reverse.dropWhile Char.isWhitespace).reverse

/-- Embeds `s * k` for a string and an integer: `k` copies of `s`, and the
empty string when `k` is zero or negative. -/
def pyRepeat (s : Str) (k : Int) : Str :=
  (List.replicate k.toNat s).flatten

/-- Value of a nonempty list of decimal digits. -/
def digitsToNat (ds : Str) : Nat :=
  ds.foldl (fun a c => a * 10 + (c.toNat - 48)) 0

/-- Embeds `int(s)` on a string: surrounding whitespace is stripped, an
optional sign is honoured, and a nonempty run of decimal digits is
required; anything else raises `ValueError`.  (The underscore digit
grouping Python additionally accepts is not modelled; no template in the
repository uses it.) -/
def pyInt (s : Str) : Except PyErr Int :=
  match pyStrip s with
  | '-' :: ds =>
    if ds ≠ [] ∧ ds.all Char.isDigit then .ok (-(digitsToNat ds : Int))
    else .error .valueError
  | '+' :: ds =>
    if ds ≠ [] ∧ ds.all Char.isDigit then .ok (digitsToNat ds : Int)
    else .error .valueError
  | ds =>
    if ds ≠ [] ∧ ds.all Char.isDigit then .ok (digitsToNat ds : Int)
    else .error .valueError

/-- Embeds Python list indexing `l[i]` with an integer index: negative
indices count from the end, and an out-of-range index raises
`IndexError`. -/
def pyIndex {α : Type} (l : List α) (i : Int) : Except PyErr α :=
  let j := if i < 0 then i + l.length else i
  if j < 0 then .error .indexError
  else
    match l.get? j.toNat with
    | some x => .ok x
    | none => .error .indexError

/-- Embeds `len(re.findall("\033", s))`: the pattern is the literal escape
character, so this is the number of escape characters in `s`. -/
def countEsc (s : Str) : Int :=
  (s.count '\x1b' : Nat)

/-- Embeds the column-alignment loop at the end of
`FullTracer._parse_line`: even-indexed segments are literal text, an
odd-indexed segment is parsed by `int()` as a target width and is replaced
by padding spaces, where a negative computed count yields no spaces
(`" " * k` is empty for nonpositive `k`). -/
def alignGo : Nat → Str → List Str → Except PyErr Str
  | _, acc, [] => .ok acc
  | i, acc, v :: rest =>
    if i % 2 = 0 then alignGo (i + 1) (acc ++ v) rest
    else
      match pyInt v with
      | .error e => .error e
      | .ok w =>
        let n : Int := countEsc acc
        alignGo (i + 1)
          (acc ++ List.replicate (w - (acc.length : Int) + n * 4 + (if 0 < n then 1 else 0)).toNat ' ')
          rest

/-- Embeds the `Colors` ANSI escape constants used by the default
configuration. -/
def Colors.GREEN : Str := "\x1b[32m".data

/-- Embeds `Colors.RESET_FMT`. -/
def Colors.RESET_FMT : Str := "\x1b[0m".data

/-- Embeds `Colors.YELLOW`. -/
def Colors.YELLOW : Str := "\x1b[93m".data

/-- Embeds `HyperLinks.PYCHARM_LINK`. -/
def HyperLinks.PYCHARM_LINK : Str := "File \"%file\", line %lineno".data

/-- Embeds `HyperLinks.VSCODE_LINK`. -/
def HyperLinks.VSCODE_LINK : Str :=
  "[".data ++ HyperLinks.PYCHARM_LINK ++
    "](command:workbench.action.files.openFile?path=%file&line=%line_no)".data

/-- Embeds the `Config.DEFAULT` sentinel string `"%DEFAULT%"`. -/
def DEFAULT_SENTINEL : Str := "%DEFAULT%".data

/-- Embeds the `Config` dataclass.  Pattern options, which in Python are
optional pattern strings, are modelled as optional abstract regexes; the
`quotation_replacement` and `consecutive_mode` fields can be `None` in
Python and are therefore options. -/
structure Config where
  anchor : Str
  quotation_replacement : Option Str
  line_length : Int
  IDE : Str
  not_found : Str
  filename_pattern : Option PyRegex
  func_name_pattern : Option PyRegex
  line_pattern : Option PyRegex
  ignore_unfound_lines : Bool
  max_depth : Option Int
  trace_lines : Bool
  autoparse : Bool
  depth_tab : Str
  strip : Bool
  link : Str
  mode : Str
  consecutive_mode : Option Str
  start_line_pattern : Option PyRegex
  start_func_pattern : Option PyRegex
  start_file_pattern : Option PyRegex

/-- Embeds `Config.__post_init__`: when the `link`, `mode` or
`consecutive_mode` field holds the `%DEFAULT%` sentinel it is rebuilt from
the other fields, exactly as the f-strings in the source do.  Note that no
pattern option is compiled or validated here: this function is total. -/
def Config.postInit (c : Config) : Config :=
  let c1 :=
    if c.link = DEFAULT_SENTINEL then
      { c with link := if c.IDE = "vscode".data then HyperLinks.VSCODE_LINK
                       else HyperLinks.PYCHARM_LINK }
    else c
  let c2 :=
    if c1.mode = DEFAULT_SENTINEL then
      { c1 with mode :=
          "(%depth)%depth_indent".data ++ c1.anchor ++ "10".data ++ c1.anchor ++
          "%line".data ++ c1.anchor ++ (toString (c1.line_length + 10)).data ++
          c1.anchor ++ Colors.GREEN ++ c1.link ++ " (%func)".data ++ Colors.RESET_FMT }
    else c1
  if c2.consecutive_mode = some DEFAULT_SENTINEL then
    let cm := " ".data ++ c2.anchor ++ "10".data ++ c2.anchor ++
         "%line".data ++ c2.anchor ++ (toString (c2.line_length + 10)).data ++
         c2.anchor ++ Colors.GREEN ++ c2.link ++ " (%func)".data ++ Colors.RESET_FMT
    { c2 with consecutive_mode := some cm }
  else c2

/-- Embeds the `FrameInfo` dataclass. -/
structure FrameInfo where
  filename : Str
  func_name : Str
  line_no : Int
  depth : Int
  event : Str
deriving DecidableEq, Repr

/-- Embeds the `ParsingState` typed dictionary.  The `lines` source cache,
a Python dict, is modelled as an association list queried by
`List.lookup`. -/
structure ParsingState where
  started : Bool
  ignoring : Int
  lines : List (Str × List Str)
  last_file_func_line : Str × Str × Int
  parsed_trace : List Str
deriving DecidableEq, Repr

/-- Embeds the fresh `ParsingState` built in `FullTracer.__init__`. -/
def initParsingState : ParsingState :=
  { started := false
    ignoring := 0
    lines := []
    last_file_func_line := ([], [], -2)
    parsed_trace := [] }

/-- Embeds `FullTracer._check_start`.  The Python `and` chain over
`p is None or re.match(p, x)` short-circuits, so a later pattern is only
compiled (and can only raise) when every earlier conjunct was truthy. -/
def checkStart (fi : FrameInfo) (config : Config) (line : Str) : Except PyErr Bool :=
  match (match config.start_line_pattern with
         | none => .ok true
         | some p => reMatch p line : Except PyErr Bool) with
  | .error e => .error e
  | .ok false => .ok false
  | .ok true =>
    match (match config.start_func_pattern with
           | none => .ok true
           | some p => reMatch p fi.func_name : Except PyErr Bool) with
    | .error e => .error e
    | .ok false => .ok false
    | .ok true =>
      match config.start_file_pattern with
      | none => .ok true
      | some p => reMatch p fi.filename

/-- Embeds `FullTracer._should_trace_line`: the Gate.  The `max_depth`
check uses Python truthiness, so a `max_depth` of `None` or `0` imposes no
limit. -/
def shouldTraceLine (fi : FrameInfo) (config : Config) : Except PyErr Bool :=
  if !config.trace_lines ∧ fi.event ≠ "call".data then .ok false
  else if (match config.max_depth with
           | some m => decide (m ≠ 0 ∧ fi.depth > m)
           | none => false : Bool) then .ok false
  else
    match (match config.filename_pattern with
           | none => .ok true
           | some p => reMatch p fi.filename : Except PyErr Bool) with
    | .error e => .error e
    | .ok false => .ok false
    | .ok true =>
      match (match config.func_name_pattern with
             | none => .ok true
             | some p => reMatch p fi.func_name : Except PyErr Bool) with
      | .error e => .error e
      | .ok false => .ok false
      | .ok true => .ok true

/-- Embeds `FullTracer._get_line`.  On a cache miss the file is read
through the filesystem boundary `fs`; only `FileNotFoundError` degrades to
the configured `not_found` marker with `found = False`, while the `try`
block lets every other exception (an `OSError` such as a permission error,
or the `IndexError` from the subsequent indexing) escape.  The retrieved
raw line is truncated by `[:-1]`, which unconditionally removes its final
character. -/
def getLine (fs : Str → FileResult) (fi : FrameInfo) (lines : List (Str × List Str))
    (config : Config) : Except PyErr (Str × Bool × List (Str × List Str)) :=
  match List.lookup fi.filename lines with
  | some ls =>
    match pyIndex ls (fi.line_no - 1) with
    | .error e => .error e
    | .ok line => .ok (line.dropLast, true, lines)
  | none =>
    match fs fi.filename with
    | .found ls =>
      match pyIndex ls (fi.line_no - 1) with
      | .error e => .error e
      | .ok line => .ok (line.dropLast, true, (fi.filename, ls) :: lines)
    | .absent => .ok (config.not_found, false, lines)
    | .denied => .error .osError

/-- Embeds `FullTracer._should_include_line`: the content filter, using
search semantics. -/
def shouldIncludeLine (line : Str) (config : Config) : Except PyErr Bool :=
  match config.line_pattern with
  | none => .ok true
  | some p => reSearch p line

/-- Embeds `FullTracer._is_consecutive_line`. -/
def isConsecutiveLine (fi : FrameInfo) (last : Str × Str × Int) : Bool :=
  decide (fi.filename = last.1 ∧ fi.func_name = last.2.1 ∧ fi.line_no = last.2.2 + 1)

/-- Embeds `FullTracer._format_line`: double quotes in the resolved line
are unconditionally replaced by the quotation-replacement glyph (a `None`
glyph would raise `TypeError` inside `str.replace`), then the line is
optionally stripped. -/
def formatLine (line : Str) (config : Config) : Except PyErr Str :=
  match config.quotation_replacement with
  | none => .error .typeError
  | some q =>
    let formatted_line := pyReplace line ['\"'] q
    .ok (if config.strip then pyStrip formatted_line else formatted_line)

/-- Embeds `FullTracer._parse_line`: the template renderer.  Placeholders
are substituted by a cascade of `str.replace` calls in source order, the
quotation replacement inside the renderer happens only when the template
contains the `link` substring, and the final anchor-split alignment loop
pads each odd segment. -/
def parseLine (mode : Str) (fi : FrameInfo) (line_formatted : Str)
    (last : Str × Str × Int) (config : Config) : Except PyErr Str :=
  let same_line := decide (fi.filename = last.1 ∧ fi.line_no = last.2.2)
  let formatted_func_name :=
    if !same_line then fi.func_name else last.2.1 ++ "=>".data ++ fi.func_name
  let linked := pyContains mode config.link
  let m1 := pyReplace mode "%file".data fi.filename
  let m2 := pyReplace m1 "%func".data formatted_func_name
  let m3 := pyReplace m2 "%lineno".data (toString fi.line_no).data
  let m4 := pyReplace m3 "%event".data fi.event
  let depth_indent := pyRepeat config.depth_tab fi.depth
  let m5 := pyReplace m4 "%depth_indent".data depth_indent
  let m6 := pyReplace m5 "%depth".data (toString fi.depth).data
  let formatted_line :=
    match config.quotation_replacement with
    | some q => if linked then pyReplace line_formatted ['\"'] q else line_formatted
    | none => line_formatted
  let formatted_line2 := if config.strip then pyStrip formatted_line else formatted_line
  let m7 := pyReplace m6 "%line".data formatted_line2
  match pySplit m7 config.anchor with
  | .error e => .error e
  | .ok parts => alignGo 0 [] parts

/-- Embeds `FullTracer._parse_frame_info`: one orchestrator step over the
parsing state.  The branch structure follows the source line by line; note
that the update of `last_file_func_line` sits outside the
`ignore_unfound_lines` append guard, and that the Gate is consulted only
once `started` is true, because the Python condition
`(not started) or self._should_trace_line(...)` short-circuits. -/
def parseFrameInfo (fs : Str → FileResult) (st : ParsingState) (fi : FrameInfo)
    (config : Config) : Except PyErr ParsingState :=
  let st1 := if st.ignoring ≠ 0 ∧ fi.depth < st.ignoring then { st with ignoring := 0 } else st
  if st1.ignoring ≠ 0 then .ok st1
  else
    match (if st1.started then shouldTraceLine fi config else .ok true : Except PyErr Bool) with
    | .error e => .error e
    | .ok false => .ok { st1 with ignoring := fi.depth }
    | .ok true =>
      match getLine fs fi st1.lines config with
      | .error e => .error e
      | .ok (line, line_found, lines2) =>
        let st2 := { st1 with lines := lines2 }
        match (if !st2.started ∧ line_found then checkStart fi config line
               else .ok st2.started : Except PyErr Bool) with
        | .error e => .error e
        | .ok started2 =>
          let st3 := { st2 with started := started2 }
          match (if st3.started then shouldIncludeLine line config
                 else .ok false : Except PyErr Bool) with
          | .error e => .error e
          | .ok false => .ok st3
          | .ok true =>
            match (if isConsecutiveLine fi st3.last_file_func_line then config.consecutive_mode
                   else some config.mode : Option Str) with
            | none => .error .attrError
            | some mode =>
              match formatLine line config with
              | .error e => .error e
              | .ok formatted_line =>
                match parseLine mode fi formatted_line st3.last_file_func_line config with
                | .error e => .error e
                | .ok parsed_line =>
                  let st4 :=
                    if !(config.ignore_unfound_lines ∧ !line_found) then
                      { st3 with parsed_trace := st3.parsed_trace ++ [parsed_line] }
                    else st3
                  .ok { st4 with
                        last_file_func_line := (fi.filename, fi.func_name, fi.line_no) }

/-- Embeds the loop body of `FullTracer.parse`: fold one orchestrator step
over the recorded trace, starting from the parsing state the tracer
currently holds. -/
def parsePass (fs : Str → FileResult) (config : Config) (trace : List FrameInfo)
    (st : ParsingState) : Except PyErr ParsingState :=
  trace.foldlM (fun s fi => parseFrameInfo fs s fi config) st

/-- Embeds the `FullTracer` attributes that the parsing entry points
touch. -/
structure FullTracer where
  configuration : Config
  trace : List FrameInfo
  parsing_state : ParsingState
  parsed_string : Str

/-- Embeds `FullTracer.clear`: the raw trace and the parsed trace are
emptied and the parsed string reset, while every other key of the parsing
state dictionary keeps its value. -/
def FullTracer.clear (t : FullTracer) : FullTracer :=
  { t with
    trace := []
    parsing_state := { t.parsing_state with parsed_trace := [] }
    parsed_string := "unparsed".data }

/-- Embeds `FullTracer.parse` called without overrides (the keyword-
override plumbing of `_get_config` is not modelled): fold the orchestrator
step over the stored trace and join the parsed lines. -/
def FullTracer.parseRun (fs : Str → FileResult) (t : FullTracer) :
    Except PyErr FullTracer :=
  match parsePass fs t.configuration t.trace t.parsing_state with
  | .error e => .error e
  | .ok st =>
    .ok { t with parsing_state := st
                 parsed_string := List.intercalate "\n\t".data st.parsed_trace }

/-- Spec-side definition for the amended claim C2: a configuration with
every Gate-relevant option neutralised (line events admitted, no depth
ceiling, no filename or function pattern).  Used to express that the Gate
options are ignored while the start trigger has not fired. -/
def gateStripped (c : Config) : Config :=
  { c with trace_lines := true
           max_depth := none
           filename_pattern := none
           func_name_pattern := none }

/-- Spec-side definition for claim C7, following the claim text: the
number of padding spaces appended for a width-specifier segment with
target width `w`, when the output built so far has length `L` and contains
`n` escape-start characters, is `max 0 (w - L + 4*n + (1 if n > 0 else 0))`. -/
def specPadWidth (w L n : Int) : Nat :=
  (max 0 (w - L + 4 * n + (if 0 < n then 1 else 0))).toNat

/-- Concrete configuration used by the concrete instances below: plain
template `%func: %line`, anchor `⚓`, quotation replacement `”`, link
marker `LNK`, no patterns, no depth limit, lines traced, unfound lines
dropped. -/
def exampleConfig : Config :=
  { anchor := "⚓".data
    quotation_replacement := some "”".data
    line_length := 80
    IDE := "unknown".data
    not_found := "NF".data
    filename_pattern := none
    func_name_pattern := none
    line_pattern := none
    ignore_unfound_lines := true
    max_depth := none
    trace_lines := true
    autoparse := true
    depth_tab := []
    strip := false
    link := "LNK".data
    mode := "%func: %line".data
    consecutive_mode := some "%func: %line".data
    start_line_pattern := none
    start_func_pattern := none
    start_file_pattern := none }

/-- Concrete filesystem boundary used by the concrete instances below:
`f` is a ten-line file whose tenth line is `hello`; `q` holds one line
containing double quotes; `one` holds a single final line `abc` with no
trailing newline; `locked` raises a non-`FileNotFoundError` `OSError`;
every other name raises `FileNotFoundError`. -/
def exampleFS : Str → FileResult := fun f =>
  if f = "f".data then .found (List.replicate 9 "x\n".data ++ ["hello\n".data])
  else if f = "q".data then .found ["say \"hi\"\n".data]
  else if f = "one".data then .found ["abc".data]
  else if f = "locked".data then .denied
  else .absent

/-- A syntactically malformed regular expression, abstracted: its
`valid` flag is false, so the embedded `re.match` and `re.search` raise
`re.error` on it. -/
def badPattern : PyRegex :=
  { valid := false, matchB := fun _ => false, searchB := fun _ => false }

/-- Raw configuration for claim C5: a malformed `filename_pattern`
together with sentinel `link`, `mode` and `consecutive_mode` values, so
that `Config.postInit` runs all three default-building branches. -/
def C5raw : Config :=
  { exampleConfig with
      filename_pattern := some badPattern
      link := DEFAULT_SENTINEL
      mode := DEFAULT_SENTINEL
      consecutive_mode := some DEFAULT_SENTINEL }

theorem listStartsWith_length {p : Str} :
    ∀ {s : Str}, listStartsWith p s = true → p.length ≤ s.length := by
  induction p with
  | nil => intro s _; simp
  | cons a as ih =>
    intro s h
    cases s with
    | nil => simp [listStartsWith] at h
    | cons b bs =>
      simp only [listStartsWith, Bool.and_eq_true] at h
      simpa [Nat.succ_le_succ_iff] using ih h.2

theorem splitFirst_some_length {sep : Str} (hsep : sep ≠ []) :
    ∀ {s p r : Str}, splitFirst sep s = some (p, r) → r.length < s.length := by
  intro s
  induction s with
  | nil => intro p r h; simp [splitFirst] at h
  | cons a as ih =>
    intro p r h
    simp only [splitFirst] at h
    split at h
    · simp only [Option.some.injEq, Prod.mk.injEq] at h
      obtain ⟨_, hr⟩ := h
      subst hr
      have h1 : 0 < sep.length := List.length_pos.mpr hsep
      simp only [List.length_drop, List.length_cons]
      omega
    · split at h
      · next p' r' heq =>
        simp only [Option.some.injEq, Prod.mk.injEq] at h
        obtain ⟨_, hr⟩ := h
        subst hr
        have := ih heq
        simp only [List.length_cons]
        omega
      · simp at h

theorem splitFirst_single_some_not_mem {c : Char} :
    ∀ {s p r : Str}, splitFirst [c] s = some (p, r) → c ∉ p := by
  intro s
  induction s with
  | nil => intro p r h; simp [splitFirst] at h
  | cons a as ih =>
    intro p r h
    simp only [splitFirst] at h
    split at h
    · simp only [Option.some.injEq, Prod.mk.injEq] at h
      obtain ⟨hp, _⟩ := h
      subst hp
      simp
    · next hsw =>
      simp only [listStartsWith, Bool.and_eq_true, beq_iff_eq, and_true] at hsw
      split at h
      · next p' r' heq =>
        simp only [Option.some.injEq, Prod.mk.injEq] at h
        obtain ⟨hp, _⟩ := h
        subst hp
        simp only [List.mem_cons]
        rintro (h1 | h2)
        · exact hsw h1
        · exact ih heq h2
      · simp at h

theorem splitFirst_single_none_not_mem {c : Char} :
    ∀ {s : Str}, splitFirst [c] s = none → c ∉ s := by
  intro s
  induction s with
  | nil => intro _; simp
  | cons a as ih =>
    intro h
    simp only [splitFirst] at h
    split at h
    · simp at h
    · next hsw =>
      simp only [listStartsWith, Bool.and_eq_true, beq_iff_eq, and_true] at hsw
      split at h
      · simp at h
      · next heq =>
        simp only [List.mem_cons]
        rintro (h1 | h2)
        · exact hsw h1
        · exact ih heq h2

theorem splitFirst_single_some_mem {c : Char} :
    ∀ {s p r : Str}, splitFirst [c] s = some (p, r) → c ∈ s := by
  intro s
  induction s with
  | nil => intro p r h; simp [splitFirst] at h
  | cons a as ih =>
    intro p r h
    simp only [splitFirst] at h
    split at h
    · next hsw =>
      simp only [listStartsWith, Bool.and_eq_true, beq_iff_eq, and_true] at hsw
      simp [hsw]
    · split at h
      · next p' r' heq =>
        simp [ih heq]
      · simp at h

theorem pySplitGo_single_not_mem {c : Char} :
    ∀ (fuel : Nat) (s : Str), s.length < fuel →
      ∀ part ∈ pySplitGo [c] fuel s, c ∉ part := by
  intro fuel
  induction fuel with
  | zero => intro s h; omega
  | succ n ih =>
    intro s hlen part hp
    simp only [pySplitGo] at hp
    split at hp
    · next heq =>
      simp only [List.mem_singleton] at hp
      subst hp
      exact splitFirst_single_none_not_mem heq
    · next p r heq =>
      simp only [List.mem_cons] at hp
      rcases hp with hp | hp
      · subst hp
        exact splitFirst_single_some_not_mem heq
      · have hr : r.length < s.length := splitFirst_some_length (by simp) heq
        exact ih r (by omega) part hp

theorem pySplitRun_single_not_mem {c : Char} {s : Str} :
    ∀ part ∈ pySplitRun s [c], c ∉ part :=
  pySplitGo_single_not_mem _ s (Nat.lt_succ_self _)

theorem pyReplaceGo_single_not_mem {c : Char} {nw : Str} (hnw : c ∉ nw) :
    ∀ (fuel : Nat) (s : Str), s.length < fuel → c ∉ pyReplaceGo [c] nw fuel s := by
  intro fuel
  induction fuel with
  | zero => intro s h; omega
  | succ n ih =>
    intro s hlen
    simp only [pyReplaceGo]
    split
    · next heq => exact splitFirst_single_none_not_mem heq
    · next p r heq =>
      have hr : r.length < s.length := splitFirst_some_length (by simp) heq
      simp only [List.mem_append]
      rintro ((h1 | h2) | h3)
      · exact splitFirst_single_some_not_mem heq h1
      · exact hnw h2
      · exact ih r (by omega) h3

theorem pyReplace_single_not_mem {c : Char} {nw s : Str} (hnw : c ∉ nw) :
    c ∉ pyReplace s [c] nw := by
  simp only [pyReplace]
  rw [if_neg (by simp)]
  exact pyReplaceGo_single_not_mem hnw _ s (Nat.lt_succ_self _)

theorem pyStrip_subset {s : Str} {a : Char} (h : a ∈ pyStrip s) : a ∈ s := by
  simp only [pyStrip, List.mem_reverse] at h
  have h1 := (List.dropWhile_suffix (l := (s.dropWhile Char.isWhitespace).reverse)
    Char.isWhitespace).sublist.subset h
  simp only [List.mem_reverse] at h1
  exact (List.dropWhile_suffix (l := s) Char.isWhitespace).sublist.subset h1

theorem pyContains_single_iff {c : Char} {s : Str} :
    pyContains s [c] = true ↔ c ∈ s := by
  simp only [pyContains]
  rw [if_neg (by simp)]
  constructor
  · intro h
    obtain ⟨⟨p, r⟩, hpr⟩ := Option.isSome_iff_exists.mp h
    exact splitFirst_single_some_mem hpr
  · intro h
    cases heq : splitFirst [c] s with
    | none => exact absurd h (splitFirst_single_none_not_mem heq)
    | some pr => simp [heq]

theorem toNat_max_zero (x : Int) : (max 0 x).toNat = x.toNat := by
  rcases le_total 0 x with h | h
  · rw [max_eq_right h]
  · rw [max_eq_left h]
    simp [Int.toNat_of_nonpos h]

theorem alignGo_even_step {i : Nat} (h : i % 2 = 0) (acc v : Str) (rest : List Str) :
    alignGo i acc (v :: rest) = alignGo (i + 1) (acc ++ v) rest := by
  simp [alignGo, h]

theorem alignGo_odd_step {i : Nat} (h : i % 2 = 1) {w : Int} {acc v : Str} (rest : List Str)
    (hv : pyInt v = .ok w) :
    alignGo i acc (v :: rest) =
      alignGo (i + 1)
        (acc ++ List.replicate (specPadWidth w acc.length (countEsc acc)) ' ') rest := by
  have hcount : (w - (acc.length : Int) + countEsc acc * 4 +
      (if 0 < countEsc acc then 1 else 0)).toNat =
      specPadWidth w acc.length (countEsc acc) := by
    rw [specPadWidth, toNat_max_zero]
    congr 1
    ring
  simp only [alignGo]
  rw [if_neg (by omega)]
  simp only [hv]
  rw [hcount]

theorem alignGo_odd_step_error {i : Nat} (h : i % 2 = 1) {e : PyErr} {acc v : Str}
    (rest : List Str) (hv : pyInt v = .error e) :
    alignGo i acc (v :: rest) = .error e := by
  simp only [alignGo]
  rw [if_neg (by omega)]
  simp only [hv]

theorem alignGo_not_mem {c : Char} (hc : c ≠ ' ') :
    ∀ (parts : List Str) (i : Nat) (acc : Str), c ∉ acc →
      (∀ p ∈ parts, c ∉ p) → ∀ {out : Str}, alignGo i acc parts = .ok out → c ∉ out := by
  intro parts
  induction parts with
  | nil =>
    intro i acc hacc _ out h
    simp only [alignGo, Except.ok.injEq] at h
    subst h
    exact hacc
  | cons v rest ih =>
    intro i acc hacc hparts out h
    simp only [alignGo] at h
    split at h
    · refine ih (i + 1) (acc ++ v) ?_ (fun p hp => hparts p (by simp [hp])) h
      simp only [List.mem_append]
      rintro (h1 | h2)
      · exact hacc h1
      · exact hparts v (by simp) h2
    · split at h
      · simp at h
      · refine ih (i + 1) _ ?_ (fun p hp => hparts p (by simp [hp])) h
        simp only [List.mem_append, List.mem_replicate]
        rintro (h1 | h2)
        · exact hacc h1
        · exact hc h2.2

theorem parsePass_nil (fs : Str → FileResult) (config : Config) (st : ParsingState) :
    parsePass fs config [] st = .ok st := rfl

theorem parsePass_cons_ok {fs : Str → FileResult} {config : Config} {st st' : ParsingState}
    {e : FrameInfo} (tr : List FrameInfo)
    (h : parseFrameInfo fs st e config = .ok st') :
    parsePass fs config (e :: tr) st = parsePass fs config tr st' := by
  simp only [parsePass, List.foldlM_cons, h]
  rfl

theorem parsePass_cons_error {fs : Str → FileResult} {config : Config} {st : ParsingState}
    {e : FrameInfo} {err : PyErr} (tr : List FrameInfo)
    (h : parseFrameInfo fs st e config = .error err) :
    parsePass fs config (e :: tr) st = .error err := by
  simp only [parsePass, List.foldlM_cons, h]
  rfl

theorem parseFrameInfo_suppressed {fs : Str → FileResult} {st : ParsingState}
    {fi : FrameInfo} {config : Config}
    (h1 : st.ignoring ≠ 0) (h2 : ¬fi.depth < st.ignoring) :
    parseFrameInfo fs st fi config = .ok st := by
  simp [parseFrameInfo, h2, h1]

theorem parsePass_suppressed {fs : Str → FileResult} {config : Config} {st : ParsingState}
    {d : Int} (hig : st.ignoring = d) (hd : d ≠ 0) :
    ∀ tr : List FrameInfo, (∀ e ∈ tr, d ≤ e.depth) →
      parsePass fs config tr st = .ok st := by
  intro tr
  induction tr with
  | nil => intro _; rfl
  | cons e tr ih =>
    intro hall
    have h1 : parseFrameInfo fs st e config = .ok st := by
      refine parseFrameInfo_suppressed (by rw [hig]; exact hd) ?_
      have := hall e (by simp)
      rw [hig]
      omega
    rw [parsePass_cons_ok tr h1]
    exact ih fun e' he' => hall e' (by simp [he'])

theorem parseFrameInfo_gate_reject {fs : Str → FileResult} {st : ParsingState}
    {fi : FrameInfo} {config : Config} (hst : st.started = true)
    (hig : st.ignoring = 0) (hgate : shouldTraceLine fi config = .ok false) :
    parseFrameInfo fs st fi config = .ok { st with ignoring := fi.depth } := by
  have hcond : ¬(st.ignoring ≠ 0 ∧ fi.depth < st.ignoring) := by simp [hig]
  simp [parseFrameInfo, hcond, hig, hst, hgate]

theorem parseFrameInfo_gate_error {fs : Str → FileResult} {st : ParsingState}
    {fi : FrameInfo} {config : Config} {err : PyErr} (hst : st.started = true)
    (hig : st.ignoring = 0) (hgate : shouldTraceLine fi config = .error err) :
    parseFrameInfo fs st fi config = .error err := by
  have hcond : ¬(st.ignoring ≠ 0 ∧ fi.depth < st.ignoring) := by simp [hig]
  simp [parseFrameInfo, hcond, hig, hst, hgate]

theorem shouldTraceLine_invalid_filename {fi : FrameInfo} {config : Config} {p : PyRegex}
    (htl : config.trace_lines = true) (hmd : config.max_depth = none)
    (hp : config.filename_pattern = some p) (hv : p.valid = false) :
    shouldTraceLine fi config = .error .reError := by
  simp [shouldTraceLine, htl, hmd, hp, reMatch, hv]

theorem checkStart_invalid_line_pattern {fi : FrameInfo} {config : Config} {p : PyRegex}
    {line : Str} (hp : config.start_line_pattern = some p) (hv : p.valid = false) :
    checkStart fi config line = .error .reError := by
  simp [checkStart, hp, reMatch, hv]

theorem parseFrameInfo_start_error {fs : Str → FileResult} {st : ParsingState}
    {fi : FrameInfo} {config : Config} {p : PyRegex} {line : Str}
    {lines2 : List (Str × List Str)}
    (hst : st.started = false) (hig : st.ignoring = 0)
    (hgl : getLine fs fi st.lines config = .ok (line, true, lines2))
    (hp : config.start_line_pattern = some p) (hv : p.valid = false) :
    parseFrameInfo fs st fi config = .error .reError := by
  have hcond : ¬(st.ignoring ≠ 0 ∧ fi.depth < st.ignoring) := by simp [hig]
  have hcs : checkStart fi config line = .error .reError :=
    checkStart_invalid_line_pattern hp hv
  simp [parseFrameInfo, hcond, hig, hst, hgl, hcs]

theorem parseFrameInfo_gate_agnostic {fs : Str → FileResult} {st : ParsingState}
    {fi : FrameInfo} {config : Config} (hst : st.started = false) (hig : st.ignoring = 0) :
    parseFrameInfo fs st fi config = parseFrameInfo fs st fi (gateStripped config) := by
  have hcond : ¬(st.ignoring ≠ 0 ∧ fi.depth < st.ignoring) := by simp [hig]
  simp only [parseFrameInfo, hcond, if_false, hst]
  rfl

theorem parseFrameInfo_shape {fs : Str → FileResult} {st : ParsingState} {fi : FrameInfo}
    {config : Config} {st' : ParsingState}
    (h : parseFrameInfo fs st fi config = .ok st') :
    (st'.parsed_trace = st.parsed_trace ∧
      st'.last_file_func_line = st.last_file_func_line) ∨
    (st'.last_file_func_line = (fi.filename, fi.func_name, fi.line_no) ∧
      (st'.parsed_trace = st.parsed_trace ∨
        ∃ p, st'.parsed_trace = st.parsed_trace ++ [p])) := by
  simp only [parseFrameInfo] at h
  generalize hst1 : (if st.ignoring ≠ 0 ∧ fi.depth < st.ignoring then
      { st with ignoring := 0 } else st) = st1 at h
  have hpt : st1.parsed_trace = st.parsed_trace := by
    rw [← hst1]; split <;> rfl
  have hlast : st1.last_file_func_line = st.last_file_func_line := by
    rw [← hst1]; split <;> rfl
  split at h
  · injection h with h
    subst h
    exact Or.inl ⟨hpt, hlast⟩
  · split at h
    · simp at h
    · injection h with h
      subst h
      exact Or.inl ⟨hpt, hlast⟩
    · split at h
      · simp at h
      · split at h
        · simp at h
        · split at h
          · simp at h
          · injection h with h
            subst h
            exact Or.inl ⟨hpt, hlast⟩
          · split at h
            · simp at h
            · split at h
              · simp at h
              · split at h
                · simp at h
                · rename_i pl hpl
                  injection h with h
                  subst h
                  refine Or.inr ⟨rfl, ?_⟩
                  split
                  · exact Or.inr ⟨pl, by simp [hpt]⟩
                  · exact Or.inl (by simp [hpt])

/-- Claim C1, counterexample: rendering the sequence A at line 10 then B at
line 10 of the same file produces two output entries for that line, not
exactly one — the earlier render is kept, not replaced. -/
theorem C1_counterexample :
    (parsePass exampleFS exampleConfig
        [⟨"f".data, "A".data, 10, 1, "line".data⟩, ⟨"f".data, "B".data, 10, 1, "line".data⟩]
        initParsingState).map (fun s => s.parsed_trace.length) = .ok 2 ∧
    (2 : Nat) ≠ 1 :=
  ⟨rfl, by decide⟩

/-- Claim C1 (amended): the render of a repeated physical line is appended
after the previously rendered entry — `parsed_trace` is append-only in
every orchestrator step — and the new entry carries the concatenated
function display: the sequence A at line 10 then B at line 10 yields the
two entries `A: hello` and `A=>B: hello`. -/
theorem C1_thm :
    (∀ (fs : Str → FileResult) (st : ParsingState) (fi : FrameInfo) (config : Config)
        (st' : ParsingState), parseFrameInfo fs st fi config = .ok st' →
        ∃ t, st'.parsed_trace = st.parsed_trace ++ t) ∧
    (parsePass exampleFS exampleConfig
        [⟨"f".data, "A".data, 10, 1, "line".data⟩, ⟨"f".data, "B".data, 10, 1, "line".data⟩]
        initParsingState).map ParsingState.parsed_trace =
      .ok ["A: hello".data, "A=>B: hello".data] := by
  constructor
  · intro fs st fi config st' h
    rcases parseFrameInfo_shape h with ⟨hpt, _⟩ | ⟨_, hpt | ⟨p, hp⟩⟩
    · exact ⟨[], by simp [hpt]⟩
    · exact ⟨[], by simp [hpt]⟩
    · exact ⟨[p], hp⟩
  · rfl

/-- Claim C1 witness: the append-only part applied at a concrete step. -/
theorem C1_witness :
    ∃ t, initParsingState.parsed_trace = initParsingState.parsed_trace ++ t :=
  C1_thm.1 exampleFS initParsingState ⟨"nope".data, "A".data, 1, 1, "line".data⟩
    exampleConfig initParsingState rfl

/-- Claim C2, counterexample: with a depth ceiling of 1, a depth-2 event
fails the Gate, yet — because it is also the start-triggering event — it is
rendered, producing one entry instead of none. -/
theorem C2_counterexample :
    shouldTraceLine ⟨"f".data, "A".data, 10, 2, "line".data⟩
        { exampleConfig with max_depth := some 1 } = .ok false ∧
    (parsePass exampleFS { exampleConfig with max_depth := some 1 }
        [⟨"f".data, "A".data, 10, 2, "line".data⟩] initParsingState).map
        (fun s => s.parsed_trace.length) = .ok 1 ∧
    (1 : Nat) ≠ 0 :=
  ⟨rfl, rfl, by decide⟩

/-- Claim C2 (amended): while the start trigger has not fired the Gate is
bypassed entirely — the orchestrator step does not depend on the
Gate-relevant options (trace_lines, max_depth, filename_pattern,
func_name_pattern) — so a start-triggering event failing a Gate rule is
still rendered, as the concrete depth-limited instance shows. -/
theorem C2_thm :
    (∀ (fs : Str → FileResult) (st : ParsingState) (fi : FrameInfo) (config : Config),
        st.started = false → st.ignoring = 0 →
        parseFrameInfo fs st fi config = parseFrameInfo fs st fi (gateStripped config)) ∧
    shouldTraceLine ⟨"f".data, "A".data, 10, 2, "line".data⟩
        { exampleConfig with max_depth := some 1 } = .ok false ∧
    (parsePass exampleFS { exampleConfig with max_depth := some 1 }
        [⟨"f".data, "A".data, 10, 2, "line".data⟩] initParsingState).map
        ParsingState.parsed_trace = .ok ["A: hello".data] :=
  ⟨fun _ _ _ _ h1 h2 => parseFrameInfo_gate_agnostic h1 h2, rfl, rfl⟩

/-- Claim C2 witness: the Gate-independence part applied at a concrete
not-yet-started state. -/
theorem C2_witness :
    parseFrameInfo exampleFS initParsingState ⟨"f".data, "A".data, 10, 2, "line".data⟩
        { exampleConfig with max_depth := some 1 } =
      parseFrameInfo exampleFS initParsingState ⟨"f".data, "A".data, 10, 2, "line".data⟩
        (gateStripped { exampleConfig with max_depth := some 1 }) :=
  C2_thm.1 exampleFS initParsingState ⟨"f".data, "A".data, 10, 2, "line".data⟩
    { exampleConfig with max_depth := some 1 } rfl rfl

/-- Claim C3, counterexample: a Gate rejection at depth 0 stores
`ignoring = 0`, which means "not ignoring", so the following event at
depth 1 ≥ 0 — with no intervening event at depth below 0 — is rendered
anyway: the pass output grows from one entry to two. -/
theorem C3_counterexample :
    shouldTraceLine ⟨"f".data, "B".data, 10, 0, "line".data⟩
        { exampleConfig with trace_lines := false } = .ok false ∧
    (parsePass exampleFS { exampleConfig with trace_lines := false }
        [⟨"f".data, "A".data, 10, 1, "call".data⟩, ⟨"f".data, "B".data, 10, 0, "line".data⟩]
        initParsingState).map (fun s => (s.ignoring, s.parsed_trace.length)) = .ok (0, 1) ∧
    (parsePass exampleFS { exampleConfig with trace_lines := false }
        [⟨"f".data, "A".data, 10, 1, "call".data⟩, ⟨"f".data, "B".data, 10, 0, "line".data⟩,
         ⟨"f".data, "C".data, 10, 1, "call".data⟩]
        initParsingState).map (fun s => s.parsed_trace.length) = .ok 2 ∧
    (2 : Nat) ≠ 1 :=
  ⟨rfl, rfl, rfl, by decide⟩

/-- Claim C3 (amended): a Gate rejection of e1 sets `ignoring` to
e1.depth, and provided that stored depth d is nonzero, every following
event at depth ≥ d before any event at depth < d leaves the state — and in
particular the rendered output — completely unchanged. -/
theorem C3_thm :
    (∀ (fs : Str → FileResult) (st : ParsingState) (fi : FrameInfo) (config : Config),
        st.started = true → st.ignoring = 0 → shouldTraceLine fi config = .ok false →
        parseFrameInfo fs st fi config = .ok { st with ignoring := fi.depth }) ∧
    (∀ (fs : Str → FileResult) (config : Config) (st : ParsingState) (d : Int)
        (tr : List FrameInfo), st.ignoring = d → d ≠ 0 → (∀ e ∈ tr, d ≤ e.depth) →
        parsePass fs config tr st = .ok st) :=
  ⟨fun _ _ _ _ h1 h2 h3 => parseFrameInfo_gate_reject h1 h2 h3,
   fun _ _ _ _ tr h1 h2 h3 => parsePass_suppressed h1 h2 tr h3⟩

/-- Claim C3 witness: both parts applied at concrete inputs — a Gate
rejection at depth 2, and a suppressed pass over one deeper event. -/
theorem C3_witness :
    parseFrameInfo exampleFS { initParsingState with started := true }
        ⟨"f".data, "B".data, 10, 2, "line".data⟩
        { exampleConfig with trace_lines := false } =
      .ok { { initParsingState with started := true } with ignoring := 2 } ∧
    parsePass exampleFS exampleConfig
        [⟨"f".data, "C".data, 10, 3, "line".data⟩]
        { initParsingState with started := true, ignoring := 2 } =
      .ok { initParsingState with started := true, ignoring := 2 } :=
  ⟨C3_thm.1 exampleFS { initParsingState with started := true }
      ⟨"f".data, "B".data, 10, 2, "line".data⟩
      { exampleConfig with trace_lines := false } rfl rfl rfl,
   C3_thm.2 exampleFS exampleConfig { initParsingState with started := true, ignoring := 2 }
      2 [⟨"f".data, "C".data, 10, 3, "line".data⟩] rfl (by decide) (by decide)⟩

/-- Claim C4, counterexample: the second event resolves to a missing file
and is dropped by `ignore_unfound_lines` — the output keeps exactly one
entry — yet `last_file_func_line` is updated to that dropped event. -/
theorem C4_counterexample :
    (parsePass exampleFS exampleConfig
        [⟨"f".data, "A".data, 10, 1, "line".data⟩] initParsingState).map
        (fun s => (s.parsed_trace.length, s.last_file_func_line)) =
      .ok (1, ("f".data, "A".data, 10)) ∧
    (parsePass exampleFS exampleConfig
        [⟨"f".data, "A".data, 10, 1, "line".data⟩, ⟨"g".data, "B".data, 5, 1, "line".data⟩]
        initParsingState).map
        (fun s => (s.parsed_trace.length, s.last_file_func_line)) =
      .ok (1, ("g".data, "B".data, 5)) ∧
    ("g".data, "B".data, (5 : Int)) ≠ ("f".data, "A".data, (10 : Int)) :=
  ⟨rfl, rfl, by decide⟩

/-- Claim C4 (amended): `last_file_func_line` is updated exactly for the
events that reach the render step — surviving the Gate, start gating and
the line-inclusion filter — including events whose entry is then dropped
by `ignore_unfound_lines`; whenever a step changes `parsed_trace` or
changes `last_file_func_line`, the latter is the current event triple. -/
theorem C4_thm :
    (∀ (fs : Str → FileResult) (st : ParsingState) (fi : FrameInfo) (config : Config)
        (st' : ParsingState), parseFrameInfo fs st fi config = .ok st' →
        (st'.parsed_trace ≠ st.parsed_trace →
          st'.last_file_func_line = (fi.filename, fi.func_name, fi.line_no)) ∧
        (st'.last_file_func_line ≠ st.last_file_func_line →
          st'.last_file_func_line = (fi.filename, fi.func_name, fi.line_no))) ∧
    (parsePass exampleFS exampleConfig
        [⟨"f".data, "A".data, 10, 1, "line".data⟩, ⟨"g".data, "B".data, 5, 1, "line".data⟩]
        initParsingState).map (fun s => (s.parsed_trace.length, s.last_file_func_line)) =
      .ok (1, ("g".data, "B".data, 5)) := by
  constructor
  · intro fs st fi config st' h
    rcases parseFrameInfo_shape h with ⟨hpt, hl⟩ | ⟨hl, _⟩
    · exact ⟨fun hne => absurd hpt hne, fun hne => absurd hl hne⟩
    · exact ⟨fun _ => hl, fun _ => hl⟩
  · rfl

/-- Claim C4 witness: the update characterisation applied at a concrete
no-op step. -/
theorem C4_witness :
    (initParsingState.parsed_trace ≠ initParsingState.parsed_trace →
      initParsingState.last_file_func_line = ("nope".data, "A".data, 1)) ∧
    (initParsingState.last_file_func_line ≠ initParsingState.last_file_func_line →
      initParsingState.last_file_func_line = ("nope".data, "A".data, 1)) :=
  C4_thm.1 exampleFS initParsingState ⟨"nope".data, "A".data, 1, 1, "line".data⟩
    exampleConfig initParsingState rfl

/-- Claim C5, counterexample: a configuration whose filename_pattern is
malformed is constructed without any error — `Config.postInit` completes,
building the default templates — and the regex error is raised later,
during the parse pass, when the Gate first evaluates the pattern. -/
theorem C5_counterexample :
    parsePass exampleFS (Config.postInit C5raw)
        [⟨"f".data, "A".data, 10, 1, "line".data⟩, ⟨"f".data, "B".data, 10, 1, "line".data⟩]
        initParsingState = .error .reError :=
  rfl

/-- Claim C5 (amended): configuration construction performs no pattern
validation (postInit is total and keeps the malformed pattern); the fatal
`re.error` is instead raised during the parse pass at the first event for
which the malformed pattern is evaluated — for a malformed
filename_pattern at the first Gate-checked event, for a malformed
start_line_pattern at the first start check on a found line. -/
theorem C5_thm :
    (∀ (fs : Str → FileResult) (st : ParsingState) (fi : FrameInfo) (config : Config)
        (p : PyRegex), st.started = true → st.ignoring = 0 →
        config.trace_lines = true → config.max_depth = none →
        config.filename_pattern = some p → p.valid = false →
        parseFrameInfo fs st fi config = .error .reError) ∧
    (∀ (fs : Str → FileResult) (st : ParsingState) (fi : FrameInfo) (config : Config)
        (p : PyRegex) (line : Str) (lines2 : List (Str × List Str)),
        st.started = false → st.ignoring = 0 →
        getLine fs fi st.lines config = .ok (line, true, lines2) →
        config.start_line_pattern = some p → p.valid = false →
        parseFrameInfo fs st fi config = .error .reError) ∧
    (Config.postInit C5raw).filename_pattern = some badPattern ∧
    badPattern.valid = false ∧
    parsePass exampleFS (Config.postInit C5raw)
        [⟨"f".data, "B".data, 10, 1, "line".data⟩]
        { initParsingState with started := true } = .error .reError :=
  ⟨fun _ _ _ _ _ h1 h2 h3 h4 h5 h6 =>
     parseFrameInfo_gate_error h1 h2 (shouldTraceLine_invalid_filename h3 h4 h5 h6),
   fun _ _ _ _ _ _ _ h1 h2 h3 h4 h5 => parseFrameInfo_start_error h1 h2 h3 h4 h5,
   rfl, rfl, rfl⟩

/-- Claim C5 witness: both general parts applied at concrete inputs. -/
theorem C5_witness :
    parseFrameInfo exampleFS { initParsingState with started := true }
        ⟨"f".data, "A".data, 10, 1, "line".data⟩
        { exampleConfig with filename_pattern := some badPattern } = .error .reError ∧
    parseFrameInfo exampleFS initParsingState ⟨"f".data, "A".data, 10, 1, "line".data⟩
        { exampleConfig with start_line_pattern := some badPattern } = .error .reError :=
  ⟨C5_thm.1 exampleFS { initParsingState with started := true }
      ⟨"f".data, "A".data, 10, 1, "line".data⟩
      { exampleConfig with filename_pattern := some badPattern } badPattern
      rfl rfl rfl rfl rfl rfl,
   C5_thm.2.1 exampleFS initParsingState ⟨"f".data, "A".data, 10, 1, "line".data⟩
      { exampleConfig with start_line_pattern := some badPattern } badPattern
      "hello".data [("f".data, List.replicate 9 "x\n".data ++ ["hello\n".data])]
      rfl rfl rfl rfl rfl⟩

/-- Claim C6 (code behaviour at the failing input): for a line that ends
in a newline the resolver strips exactly the terminator (`hello`), but for
the final line `abc` of a file with no trailing terminator the `[:-1]`
truncation removes the last real character and returns `ab` with
found = true, instead of `abc` as the claim states. -/
theorem C6_thm :
    getLine exampleFS ⟨"f".data, "A".data, 10, 1, "line".data⟩ [] exampleConfig =
      .ok ("hello".data, true,
        [("f".data, List.replicate 9 "x\n".data ++ ["hello\n".data])]) ∧
    getLine exampleFS ⟨"one".data, "A".data, 1, 1, "line".data⟩ [] exampleConfig =
      .ok ("ab".data, true, [("one".data, ["abc".data])]) ∧
    "ab".data ≠ "abc".data :=
  ⟨rfl, rfl, by decide⟩

/-- Claim C7, counterexample: with the anchor configured as a space, the
rendered output of template `X 5 Y` is `X` followed by four spaces and
`Y`, in which the anchor glyph does appear. -/
theorem C7_counterexample :
    parseLine "X 5 Y".data ⟨"f".data, "A".data, 1, 1, "line".data⟩ [] ([], [], -2)
        { exampleConfig with anchor := " ".data } = .ok "X    Y".data ∧
    pyContains "X    Y".data " ".data = true :=
  ⟨rfl, rfl⟩

/-- Claim C7 (amended): splitting on the anchor alternates literal
segments (even index, appended unchanged) and width-specifier segments
(odd index), each width segment appending exactly
`max 0 (W - L + 4n + (1 if n > 0 else 0))` spaces; the anchor never
appears in the final output provided it is a single non-space character (a
space anchor reappears through the padding, see the counterexample); and
the template `X⚓5⚓Y` yields exactly four padding spaces before `Y`. -/
theorem C7_thm :
    (∀ (i : Nat) (acc v : Str) (rest : List Str), i % 2 = 0 →
        alignGo i acc (v :: rest) = alignGo (i + 1) (acc ++ v) rest) ∧
    (∀ (i : Nat) (acc v : Str) (rest : List Str) (w : Int), i % 2 = 1 →
        pyInt v = .ok w →
        alignGo i acc (v :: rest) =
          alignGo (i + 1)
            (acc ++ List.replicate (specPadWidth w acc.length (countEsc acc)) ' ') rest) ∧
    (∀ (mode : Str) (fi : FrameInfo) (lf : Str) (last : Str × Str × Int)
        (config : Config) (c : Char) (out : Str), config.anchor = [c] → c ≠ ' ' →
        parseLine mode fi lf last config = .ok out →
        pyContains out config.anchor = false) ∧
    parseLine "X⚓5⚓Y".data ⟨"f".data, "A".data, 1, 1, "line".data⟩ [] ([], [], -2)
        exampleConfig = .ok "X    Y".data := by
  refine ⟨fun i acc v rest h => alignGo_even_step h acc v rest,
          fun i acc v rest w h hv => alignGo_odd_step h rest hv, ?_, rfl⟩
  intro mode fi lf last config c out hanchor hc h
  simp only [parseLine, hanchor, pySplit] at h
  rw [if_neg (by simp)] at h
  have hout : c ∉ out :=
    alignGo_not_mem hc _ 0 [] (by simp) (fun p hp => pySplitRun_single_not_mem p hp) h
  rw [hanchor]
  cases hb : pyContains out [c] with
  | false => rfl
  | true => exact absurd (pyContains_single_iff.mp hb) hout

/-- Claim C7 witness: the three quantified parts applied at concrete
inputs. -/
theorem C7_witness :
    alignGo 0 [] ["X".data, "5".data, "Y".data] = alignGo 1 ([] ++ "X".data) ["5".data, "Y".data] ∧
    alignGo 1 "X".data ["5".data, "Y".data] =
      alignGo 2 ("X".data ++
        List.replicate (specPadWidth 5 ("X".data).length (countEsc "X".data)) ' ')
        ["Y".data] ∧
    pyContains "X    Y".data "⚓".data = false :=
  ⟨C7_thm.1 0 [] "X".data ["5".data, "Y".data] rfl,
   C7_thm.2.1 1 "X".data "5".data ["Y".data] 5 rfl rfl,
   C7_thm.2.2.1 "X⚓5⚓Y".data ⟨"f".data, "A".data, 1, 1, "line".data⟩ [] ([], [], -2)
     exampleConfig '⚓' "X    Y".data rfl (by decide) rfl⟩

/-- Claim C8, counterexample: the template `%line` does not contain the
configured link substring `LNK`, the resolved source line contains double
quotes, and yet the rendered entry carries the replacement glyph and no
double quote — the quotes do not appear unchanged. -/
theorem C8_counterexample :
    pyContains "%line".data "LNK".data = false ∧
    '\"' ∈ "say \"hi\"".data ∧
    (parsePass exampleFS { exampleConfig with mode := "%line".data }
        [⟨"q".data, "A".data, 1, 1, "line".data⟩] initParsingState).map
        ParsingState.parsed_trace = .ok ["say ”hi”".data] ∧
    '\"' ∉ "say ”hi”".data :=
  ⟨rfl, by decide, rfl, by decide⟩

/-- Claim C8 (amended): double quotes in the resolved line are replaced by
the quotation glyph unconditionally — `_format_line` performs the
replacement before the template is consulted, so the link-substring test
only triggers a redundant second replacement — hence whenever a
replacement glyph not containing a double quote is configured, the
formatted line contains no double quote, link or no link. -/
theorem C8_thm :
    (∀ (config : Config) (line q fl : Str), config.quotation_replacement = some q →
        '\"' ∉ q → formatLine line config = .ok fl → '\"' ∉ fl) ∧
    (parsePass exampleFS { exampleConfig with mode := "%line".data }
        [⟨"q".data, "A".data, 1, 1, "line".data⟩] initParsingState).map
        ParsingState.parsed_trace = .ok ["say ”hi”".data] ∧
    pyContains "%line".data "LNK".data = false := by
  refine ⟨?_, rfl, rfl⟩
  intro config line q fl hq hnq h
  simp only [formatLine, hq] at h
  injection h with h
  subst h
  split
  · intro hmem
    exact pyReplace_single_not_mem hnq (pyStrip_subset hmem)
  · exact pyReplace_single_not_mem hnq

/-- Claim C8 witness: the quantified part applied at a concrete quoted
line. -/
theorem C8_witness : '\"' ∉ "say ”hi”".data :=
  C8_thm.1 exampleConfig "say \"hi\"".data "”".data "say ”hi”".data rfl (by decide) rfl

/-- Claim C9: clear resets only the raw trace, the parsed trace and the
parsed string; started, ignoring, the source cache and the last emitted
triple keep their values, and a subsequent pass over a new trace starts
from the inherited parsing state rather than a fresh one. -/
theorem C9_thm (t : FullTracer) :
    (t.clear).trace = [] ∧
    (t.clear).parsing_state.parsed_trace = [] ∧
    (t.clear).parsed_string = "unparsed".data ∧
    (t.clear).parsing_state.started = t.parsing_state.started ∧
    (t.clear).parsing_state.ignoring = t.parsing_state.ignoring ∧
    (t.clear).parsing_state.lines = t.parsing_state.lines ∧
    (t.clear).parsing_state.last_file_func_line = t.parsing_state.last_file_func_line ∧
    ∀ (fs : Str → FileResult) (tr : List FrameInfo),
      parsePass fs t.configuration tr (t.clear).parsing_state =
        parsePass fs t.configuration tr { t.parsing_state with parsed_trace := [] } :=
  ⟨rfl, rfl, rfl, rfl, rfl, rfl, rfl, fun _ _ => rfl⟩

/-- Claim C10: the resolver converts only `FileNotFoundError` into the
not-found result; an in-range miss is impossible to confuse with it — a
line number beyond the file raises `IndexError`, any other open failure
raises its `OSError`, and either error aborts the whole pass. -/
theorem C10_thm :
    (∀ (fs : Str → FileResult) (fi : FrameInfo) (lines : List (Str × List Str))
        (config : Config) (ls : List Str), List.lookup fi.filename lines = none →
        fs fi.filename = .found ls → (ls.length : Int) < fi.line_no →
        getLine fs fi lines config = .error .indexError) ∧
    (∀ (fs : Str → FileResult) (fi : FrameInfo) (lines : List (Str × List Str))
        (config : Config), List.lookup fi.filename lines = none →
        fs fi.filename = .denied → getLine fs fi lines config = .error .osError) ∧
    (∀ (fs : Str → FileResult) (fi : FrameInfo) (lines : List (Str × List Str))
        (config : Config), List.lookup fi.filename lines = none →
        fs fi.filename = .absent →
        getLine fs fi lines config = .ok (config.not_found, false, lines)) ∧
    (∀ (fs : Str → FileResult) (config : Config) (st : ParsingState) (e : FrameInfo)
        (tr : List FrameInfo) (err : PyErr), parseFrameInfo fs st e config = .error err →
        parsePass fs config (e :: tr) st = .error err) := by
  refine ⟨?_, ?_, ?_, fun _ _ _ _ tr err h => parsePass_cons_error tr h⟩
  · intro fs fi lines config ls hlk hfs hlen
    have h0 : ¬(fi.line_no - 1 < 0) := by omega
    have hnone : ls.get? (fi.line_no - 1).toNat = none := by
      rw [List.get?_eq_none]
      omega
    have hidx : pyIndex ls (fi.line_no - 1) = .error .indexError := by
      simp only [pyIndex, if_neg h0, hnone]
    simp only [getLine, hlk, hfs, hidx]
  · intro fs fi lines config hlk hfs
    simp only [getLine, hlk, hfs]
  · intro fs fi lines config hlk hfs
    simp only [getLine, hlk, hfs]

/-- Claim C10 witness: the four parts applied at concrete inputs — an
out-of-range line number, a permission-style failure, a missing file, and
a pass aborted by the permission failure. -/
theorem C10_witness :
    getLine exampleFS ⟨"one".data, "A".data, 2, 1, "line".data⟩ [] exampleConfig =
      .error .indexError ∧
    getLine exampleFS ⟨"locked".data, "A".data, 1, 1, "line".data⟩ [] exampleConfig =
      .error .osError ∧
    getLine exampleFS ⟨"nope".data, "A".data, 1, 1, "line".data⟩ [] exampleConfig =
      .ok (exampleConfig.not_found, false, []) ∧
    parsePass exampleFS exampleConfig [⟨"locked".data, "A".data, 1, 1, "line".data⟩]
        { initParsingState with started := true } = .error .osError :=
  ⟨C10_thm.1 exampleFS ⟨"one".data, "A".data, 2, 1, "line".data⟩ [] exampleConfig
      ["abc".data] rfl rfl (by decide),
   C10_thm.2.1 exampleFS ⟨"locked".data, "A".data, 1, 1, "line".data⟩ [] exampleConfig
      rfl rfl,
   C10_thm.2.2.1 exampleFS ⟨"nope".data, "A".data, 1, 1, "line".data⟩ [] exampleConfig
      rfl rfl,
   C10_thm.2.2.2 exampleFS exampleConfig { initParsingState with started := true }
      ⟨"locked".data, "A".data, 1, 1, "line".data⟩ [] .osError rfl⟩

end FT
